import Mathlib

/-!
Verification development for `src/sketch.js`: an interactive particle
animation ("tears" emitted at the pointer) with a slow-fading image collage
layer.  The source file holds two near-duplicate program variants: variant A
(HSL hue tinting, 300-frame particle lifespan, emission gated by
`frameCount % emissionRate`) and variant B (RGB display, 150-frame lifespan,
emission gated by a hardcoded `frameCount % 10`, plus an end-of-frame
adaptive assignment to `emissionRate`).

External p5.js collaborators are modelled as explicit inputs:
`random()` becomes a supply of unit-interval samples, the ambient per-frame
values (`mouseX`, `mouseY`, `frameCount`, `millis()`, `frameRate()`,
`width`, `height`) become an `Env` record, and `setInterval`/`clearInterval`
become a timer-handle allocator plus a list of pending schedules.
JavaScript numbers are modelled as rationals; the one place where NaN can
arise (reading the never-assigned `img.randomOffset` property) is modelled
with `Option ℚ`, `none` standing for the NaN/undefined result.
-/

/-- A loaded image.  p5.Image objects carry no `randomOffset` property and the
program never assigns one anywhere, so `loadImage` leaves it absent
(`none`); reading it gives `undefined`, and number arithmetic on
`undefined` gives NaN, modelled by `Option` propagation. -/
structure Img where
  name : String
  randomOffset : Option ℚ
deriving DecidableEq

def loadImage (name : String) : Img := ⟨name, none⟩

/-- Supply of samples in [0,1) standing for successive p5 `random()` draws. -/
structure Rng where
  vals : List ℚ
deriving DecidableEq

def Rng.next (r : Rng) : ℚ × Rng :=
  match r.vals with
  | [] => (0, ⟨[]⟩)
  | u :: rest => (u, ⟨rest⟩)

/-- p5 `random(lo, hi)` = lo + random() * (hi - lo). -/
def randomRange (lo hi : ℚ) (r : Rng) : ℚ × Rng :=
  let (u, r1) := r.next
  (lo + u * (hi - lo), r1)

/-- p5 `random(array)` = array[floor(random() * array.length)]. -/
def randomChoice (xs : List Img) (r : Rng) : Img × Rng :=
  let (u, r1) := r.next
  (xs.getD (Int.toNat ⌊u * (xs.length : ℚ)⌋) (loadImage ""), r1)

/-- JavaScript truncation toward zero, used by the `%` remainder. -/
def jsTrunc (q : ℚ) : ℤ := if 0 ≤ q then ⌊q⌋ else -⌊-q⌋

/-- JavaScript `%` on finite numbers: a - b * trunc(a / b). -/
def jsMod (a b : ℚ) : ℚ := a - b * (jsTrunc (a / b) : ℚ)

/-- p5 `map(value, a, b, c, d)` without clamping. -/
def p5map (value a b c d : ℚ) : ℚ := c + (d - c) * ((value - a) / (b - a))

/-- The program only ever stores one of the two fixed tear-image arrays in
`activeTearSet` (assigned in `preload` and `toggleTearSet`), so the
reference is modelled as a two-valued tag resolved by `setImagesA` /
`setImagesB` below. -/
inductive TearSet
  | A
  | B
deriving DecidableEq

/-- Variant A tear images, set A: TEAR_FILENAMES_A. -/
def tearImagesSetA : List Img :=
  [loadImage "tear1.png", loadImage "tear2.png", loadImage "tear3.png"]

/-- Variant A tear images, set B: TEAR_FILENAMES_B. -/
def tearImagesSetB : List Img :=
  [loadImage "tear6.png", loadImage "tear7.png", loadImage "tear8.png"]

/-- Variant A slideshow images: SLIDESHOW_FILENAMES. -/
def slideshowImages : List Img := [loadImage "slide1.jpg"]

/-- Resolve the active-set tag to variant A's image arrays. -/
def setImagesA : TearSet → List Img
  | TearSet.A => tearImagesSetA
  | TearSet.B => tearImagesSetB

/-- Variant B tear images, set B differs: TEAR_FILENAMES_B of the second file. -/
def tearImagesSetB2 : List Img :=
  [loadImage "tear4.png", loadImage "tear5.png", loadImage "tear6.png"]

/-- Resolve the active-set tag to variant B's image arrays. -/
def setImagesB : TearSet → List Img
  | TearSet.A => tearImagesSetA
  | TearSet.B => tearImagesSetB2

/-- A falling tear sprite.  `life` and `lifespan` hold integer values in the
program (initialised to 300 resp. 150 and decremented by 1), so they are
embedded as integers; positions and velocities are rationals. -/
structure Tear where
  x : ℚ
  y : ℚ
  size : ℚ
  lifespan : ℤ
  life : ℤ
  vx : ℚ
  vy : ℚ
  ay : ℚ
  img : Img
deriving DecidableEq

/-- Variant A `new Tear(x, y, activeSet)`: lifespan 5 * 60 = 300 frames. -/
def Tear.create (x y : ℚ) (activeSet : List Img) (r : Rng) : Tear × Rng :=
  let (size, r1) := randomRange 160 260 r
  let (vx, r2) := randomRange (-(3/2)) (3/2) r1
  let (vy, r3) := randomRange (-2) 0 r2
  let (img, r4) := randomChoice activeSet r3
  ({ x := x, y := y, size := size, lifespan := 5 * 60, life := 5 * 60,
     vx := vx, vy := vy, ay := 1/2, img := img }, r4)

/-- Variant B `new Tear(x, y, activeSet)`: lifespan 2.5 * 60 = 150 frames. -/
def Tear.createB (x y : ℚ) (activeSet : List Img) (r : Rng) : Tear × Rng :=
  let (size, r1) := randomRange 160 260 r
  let (vx, r2) := randomRange (-(3/2)) (3/2) r1
  let (vy, r3) := randomRange (-2) 0 r2
  let (img, r4) := randomChoice activeSet r3
  ({ x := x, y := y, size := size, lifespan := 150, life := 150,
     vx := vx, vy := vy, ay := 1/2, img := img }, r4)

/-- `Tear.update()`: gravity, movement, then `life--`. -/
def Tear.update (t : Tear) : Tear :=
  let vy := t.vy + t.ay
  { t with vy := vy, x := t.x + t.vx, y := t.y + vy, life := t.life - 1 }

/-- The alpha computed in `Tear.display`: map(life, 0, lifespan, 0, 255). -/
def Tear.displayAlpha (t : Tear) : ℚ :=
  p5map (t.life : ℚ) 0 (t.lifespan : ℚ) 0 255

/-- The scale factor computed in `Tear.display`: map(life, 0, lifespan, 0.1, 1). -/
def Tear.displayScale (t : Tear) : ℚ :=
  p5map (t.life : ℚ) 0 (t.lifespan : ℚ) (1/10) 1

/-- The hue computed in variant A's `Tear.display`:
`(currentHue + this.img.randomOffset) % 360`.  When `randomOffset` is absent
the JavaScript result is NaN, modelled as `none`. -/
def Tear.hueValue (t : Tear) (currentHue : ℚ) : Option ℚ :=
  match t.img.randomOffset with
  | none => none
  | some off => some (jsMod (currentHue + off) 360)

/-- A persistent collage sprite.  `opacity` holds integer values (0, then +5
steps), embedded as an integer. -/
structure CollageImage where
  img : Img
  opacity : ℤ
  scale : ℚ
  x : ℚ
  y : ℚ
  rotation : ℚ
deriving DecidableEq

/-- `new CollageImage(img)`: opacity 0, random scale in [0.6, 1.0], random
position in the interior 80% of the canvas, rotation 0. -/
def CollageImage.create (img : Img) (width height : ℚ) (r : Rng) :
    CollageImage × Rng :=
  let (scale, r1) := randomRange (6/10) 1 r
  let (x, r2) := randomRange (width * (1/10)) (width * (9/10)) r1
  let (y, r3) := randomRange (height * (1/10)) (height * (9/10)) r2
  ({ img := img, opacity := 0, scale := scale, x := x, y := y,
     rotation := 0 }, r3)

/-- `CollageImage.update()`: fade in by 5 while below 255. -/
def CollageImage.update (c : CollageImage) : CollageImage :=
  if c.opacity < 255 then { c with opacity := c.opacity + 5 } else c

/-- The opacity passed to `tint(255, opacity)` in `CollageImage.display`. -/
def CollageImage.displayOpacity (c : CollageImage) : ℤ := c.opacity

/-- Ambient per-frame values provided by the p5 runtime. -/
structure Env where
  mouseX : ℚ
  mouseY : ℚ
  frameCount : ℕ
  now : ℚ
  frameRate : ℚ
  width : ℚ
  height : ℚ
deriving DecidableEq

/-- The sketch's global mutable state.  `activeTimers` models the runtime's
set of pending `setInterval` schedules and `nextTimerId` the handle
allocator; `slideshowInterval` is the stored nullable handle. -/
structure SketchState where
  tears : List Tear
  collageImages : List CollageImage
  isCrying : Bool
  startTime : ℚ
  emissionRate : ℕ
  activeTearSet : TearSet
  slideshowInterval : Option ℕ
  activeTimers : List ℕ
  nextTimerId : ℕ
  rng : Rng
deriving DecidableEq

/-- `getDurationBasedHue()` (variant A): 0 when not crying, else elapsed
seconds times 30, modulo 360. -/
def getDurationBasedHue (env : Env) (s : SketchState) : ℚ :=
  if !s.isCrying then 0
  else jsMod ((env.now - s.startTime) / 1000 * 30) 360

/-- The tears loop of `draw` (both variants): iterate the array from the last
index down to 0; for each element run `update()`, then `display()`, then
splice it out when `life <= 0`.  Returns the surviving array (original
order) and the tears as drawn (in draw order: last index first). -/
def tearsPass : List Tear → List Tear × List Tear
  | [] => ([], [])
  | t :: rest =>
      let (surv, drawn) := tearsPass rest
      let t2 := Tear.update t
      (if t2.life ≤ 0 then surv else t2 :: surv, drawn ++ [t2])

/-- Per-frame render data produced by variant A's `draw`. -/
structure FrameRender where
  collageOpacities : List ℤ
  tearsDrawn : List Tear
  hue : ℚ
deriving DecidableEq

/-- Variant A `draw()`: emission gated by `frameCount % emissionRate === 0`
while crying, then collage update+display, then the tears loop with the
duration-based hue. -/
def drawA (env : Env) (s : SketchState) : SketchState × FrameRender :=
  let s1 :=
    if s.isCrying then
      if env.frameCount % s.emissionRate = 0 then
        let (t, r1) :=
          Tear.create env.mouseX env.mouseY (setImagesA s.activeTearSet) s.rng
        { s with tears := s.tears ++ [t], rng := r1 }
      else s
    else s
  let collage := s1.collageImages.map CollageImage.update
  let hue := getDurationBasedHue env s1
  let (surv, drawn) := tearsPass s1.tears
  ({ s1 with collageImages := collage, tears := surv },
   { collageOpacities := collage.map CollageImage.displayOpacity,
     tearsDrawn := drawn, hue := hue })

/-- Variant B `draw()`: emission gated by the hardcoded
`frameCount % 10 === 0` while crying, then collage update+display, then the
tears loop, then the end-of-frame adaptive assignment to `emissionRate`
(20 when the measured frame rate is below 30, else 3). -/
def drawB (env : Env) (s : SketchState) : SketchState :=
  let s1 :=
    if s.isCrying then
      if env.frameCount % 10 = 0 then
        let (t, r1) :=
          Tear.createB env.mouseX env.mouseY (setImagesB s.activeTearSet) s.rng
        { s with tears := s.tears ++ [t], rng := r1 }
      else s
    else s
  let collage := s1.collageImages.map CollageImage.update
  let (surv, _drawn) := tearsPass s1.tears
  let s2 := { s1 with collageImages := collage, tears := surv }
  { s2 with emissionRate := if env.frameRate < 30 then 20 else 3 }

/-- `toggleTearSet()`: `(activeTearSet === tearImagesSetA) ? tearImagesSetB
: tearImagesSetA`. -/
def toggleTearSet (s : SketchState) : SketchState :=
  { s with activeTearSet :=
      if s.activeTearSet = TearSet.A then TearSet.B else TearSet.A }

/-- `createCollageImage()`: pick a random slideshow image and append a new
CollageImage. -/
def createCollageImage (env : Env) (s : SketchState) : SketchState :=
  let (img, r1) := randomChoice slideshowImages s.rng
  let (c, r2) := CollageImage.create img env.width env.height r1
  { s with collageImages := s.collageImages ++ [c], rng := r2 }

/-- `startSlideshow()`: only when no interval handle is stored, spawn one
collage image immediately and register a recurring schedule, storing its
fresh handle. -/
def startSlideshow (env : Env) (s : SketchState) : SketchState :=
  if s.slideshowInterval = none then
    let s1 := createCollageImage env s
    { s1 with slideshowInterval := some s1.nextTimerId,
              activeTimers := s1.activeTimers ++ [s1.nextTimerId],
              nextTimerId := s1.nextTimerId + 1 }
  else s

/-- Observable side effects of `stopSlideshow`, in statement order. -/
inductive StopEvent
  | cancelSchedule (id : ℕ)
  | clearItems
deriving DecidableEq

/-- `stopSlideshow()`: when a handle is stored, `clearInterval` it, null the
handle, then clear the collage collection.  The event list records the
statement order (cancel first, then clear). -/
def stopSlideshow (s : SketchState) : SketchState × List StopEvent :=
  match s.slideshowInterval with
  | some h =>
      ({ s with slideshowInterval := none,
                activeTimers := s.activeTimers.filter (fun i => i ≠ h),
                collageImages := [] },
       [StopEvent.cancelSchedule h, StopEvent.clearItems])
  | none => (s, [])

/-- `startCrying()`: only when not already crying, set the flag and record
`millis()`. -/
def startCrying (now : ℚ) (s : SketchState) : SketchState :=
  if !s.isCrying then { s with isCrying := true, startTime := now } else s

/-- `stopCrying()`: only when crying, clear the flag. -/
def stopCrying (s : SketchState) : SketchState :=
  if s.isCrying then { s with isCrying := false } else s

/-- `keyReleased()`: space while crying calls `stopCrying`. -/
def keyReleased (key : String) (s : SketchState) : SketchState :=
  if key = " " ∧ s.isCrying = true then stopCrying s else s

/-- Invariant of tears in the active set between frames: life within
[1, lifespan] (a tear with life ≤ 0 is removed the frame it reaches 0). -/
def SetInv (ts : List Tear) : Prop :=
  ∀ t ∈ ts, 1 ≤ t.life ∧ t.life ≤ t.lifespan

/-- Invariant of reachable collage items: opacity a nonnegative multiple of 5
at most 255. -/
def COpInv (c : CollageImage) : Prop :=
  0 ≤ c.opacity ∧ c.opacity ≤ 255 ∧ 5 ∣ c.opacity

/-- Coherence of the stored interval handle with the runtime's pending
schedules: no handle means no schedule, a stored handle means exactly that
one schedule. -/
def TimerInv (s : SketchState) : Prop :=
  match s.slideshowInterval with
  | none => s.activeTimers = []
  | some h => s.activeTimers = [h]

/-- Empty sample supply: every draw yields 0. -/
def rng0 : Rng := ⟨[]⟩

/-- Sample ambient frame values. -/
def env0 : Env :=
  { mouseX := 100, mouseY := 200, frameCount := 3, now := 5000,
    frameRate := 60, width := 800, height := 600 }

/-- Sample state: crying, emission rate 3, no tears yet. -/
def st0 : SketchState :=
  { tears := [], collageImages := [], isCrying := true, startTime := 0,
    emissionRate := 3, activeTearSet := TearSet.A, slideshowInterval := none,
    activeTimers := [], nextTimerId := 0, rng := rng0 }

/-- Sample tear (variant A, created from set A). -/
def tear0 : Tear := (Tear.create 100 200 (setImagesA TearSet.A) rng0).1

/-- Sample tear at half of its 300-frame lifespan. -/
def tear150 : Tear := { tear0 with life := 150 }

/-- Sample collage item mid fade-in. -/
def cMid : CollageImage :=
  { img := loadImage "slide1.jpg", opacity := 42, scale := 1, x := 0, y := 0,
    rotation := 0 }

/-- Sample collage item with a reachable opacity (multiple of 5). -/
def cFade : CollageImage := { cMid with opacity := 40 }

/-- Sample state with the slideshow running: handle 7, one pending schedule,
one partially faded collage item. -/
def sRun : SketchState :=
  { st0 with isCrying := false, slideshowInterval := some 7,
             activeTimers := [7], collageImages := [cMid] }

/-- C1: while Idle the frame loop appends no Particle; while Emitting with
emission-rate divisor 3, exactly one Particle — positioned at the current
pointer coordinates and drawn from the active image set — is appended on
each frame whose counter is divisible by 3, and none on other frames. -/
theorem drawA_emission (env : Env) (s : SketchState) :
    (s.isCrying = false → (drawA env s).1.tears = (tearsPass s.tears).1) ∧
    (s.isCrying = true → s.emissionRate = 3 →
      (env.frameCount % 3 = 0 →
        (drawA env s).1.tears =
          (tearsPass (s.tears ++
            [(Tear.create env.mouseX env.mouseY (setImagesA s.activeTearSet)
                s.rng).1])).1 ∧
        (Tear.create env.mouseX env.mouseY (setImagesA s.activeTearSet)
            s.rng).1.x = env.mouseX ∧
        (Tear.create env.mouseX env.mouseY (setImagesA s.activeTearSet)
            s.rng).1.y = env.mouseY) ∧
      (¬ env.frameCount % 3 = 0 →
        (drawA env s).1.tears = (tearsPass s.tears).1)) := by
  constructor
  · intro h
    simp [drawA, h]
  · intro hc h3
    constructor
    · intro hf
      refine ⟨?_, rfl, rfl⟩
      simp [drawA, hc, h3, hf]
    · intro hf
      simp [drawA, hc, h3, hf]

/-- C1 witness: concrete Emitting state with divisor 3 on frame 3. -/
theorem drawA_emission_witness :
    st0.isCrying = true ∧ st0.emissionRate = 3 ∧ env0.frameCount % 3 = 0 ∧
    (drawA env0 st0).1.tears =
      (tearsPass (st0.tears ++
        [(Tear.create env0.mouseX env0.mouseY (setImagesA st0.activeTearSet)
            st0.rng).1])).1 :=
  ⟨rfl, rfl, rfl, (((drawA_emission env0 st0).2 rfl rfl).1 rfl).1⟩

/-- C9: toggling the active image set is an involution on the whole state and
touches neither the emission flag nor the particle or collage collections. -/
theorem toggleTearSet_involutive (s : SketchState) :
    toggleTearSet (toggleTearSet s) = s ∧
    (toggleTearSet s).isCrying = s.isCrying ∧
    (toggleTearSet s).tears = s.tears ∧
    (toggleTearSet s).collageImages = s.collageImages := by
  obtain ⟨tears, ci, cry, stt, er, ats, si, atm, ni, rg⟩ := s
  cases ats <;> simp [toggleTearSet]

/-- C10: stopping emission clears only the crying flag — tears, collage,
start timestamp, active set and timer handle are untouched, and the next
frame still advances and expires the existing tears; starting emission
while already Emitting changes nothing, timestamp included; the space-key
release path coincides with stopCrying. -/
theorem crying_transitions (env : Env) (now : ℚ) (s : SketchState) :
    (stopCrying s).tears = s.tears ∧
    (stopCrying s).collageImages = s.collageImages ∧
    (stopCrying s).startTime = s.startTime ∧
    (stopCrying s).activeTearSet = s.activeTearSet ∧
    (stopCrying s).slideshowInterval = s.slideshowInterval ∧
    (stopCrying s).emissionRate = s.emissionRate ∧
    (stopCrying s).activeTimers = s.activeTimers ∧
    (stopCrying s).nextTimerId = s.nextTimerId ∧
    (stopCrying s).rng = s.rng ∧
    (stopCrying s).isCrying = false ∧
    (s.isCrying = true → startCrying now s = s) ∧
    keyReleased " " s = stopCrying s ∧
    (drawA env (stopCrying s)).1.tears = (tearsPass s.tears).1 := by
  by_cases h : s.isCrying <;>
    simp [stopCrying, startCrying, keyReleased, drawA, h]

/-- C10 witness: stopping from the concrete Emitting state, and a redundant
start is the identity there. -/
theorem crying_transitions_witness :
    st0.isCrying = true ∧ startCrying 123 st0 = st0 ∧
    (stopCrying st0).tears = st0.tears ∧
    (stopCrying st0).isCrying = false := by
  obtain ⟨h1, _, _, _, _, _, _, _, _, h10, h11, _, _⟩ :=
    crying_transitions env0 123 st0
  exact ⟨rfl, h11 rfl, h1, h10⟩

/-- C6: stopping the collage spawner while Running first cancels the pending
schedule (the event trace lists the cancellation before the clearing) and
then removes every Collage Item in the same call regardless of opacity,
leaving the handle null, the pending-schedule set empty and the collection
empty; stopping while already Stopped changes nothing. -/
theorem stopSlideshow_spec (s : SketchState) :
    (s.slideshowInterval = none → stopSlideshow s = (s, [])) ∧
    (∀ h, s.slideshowInterval = some h →
      (stopSlideshow s).1.slideshowInterval = none ∧
      (stopSlideshow s).1.collageImages = [] ∧
      (stopSlideshow s).1.activeTimers =
        s.activeTimers.filter (fun i => i ≠ h) ∧
      (stopSlideshow s).1.tears = s.tears ∧
      (stopSlideshow s).2 =
        [StopEvent.cancelSchedule h, StopEvent.clearItems] ∧
      (TimerInv s → (stopSlideshow s).1.activeTimers = [])) := by
  constructor
  · intro h
    simp [stopSlideshow, h]
  · intro h hh
    refine ⟨?_, ?_, ?_, ?_, ?_, ?_⟩ <;> simp [stopSlideshow, hh]
    intro ht
    have hts : s.activeTimers = [h] := by simpa [TimerInv, hh] using ht
    simp [hts]

/-- C6 witness: stopping the concrete Running state with a mid-fade item. -/
theorem stopSlideshow_spec_witness :
    sRun.slideshowInterval = some 7 ∧ sRun.collageImages ≠ [] ∧
    (stopSlideshow sRun).1.slideshowInterval = none ∧
    (stopSlideshow sRun).1.collageImages = [] ∧
    (stopSlideshow sRun).2 =
      [StopEvent.cancelSchedule 7, StopEvent.clearItems] :=
  ⟨rfl, by simp [sRun, st0], ((stopSlideshow_spec sRun).2 7 rfl).1,
   ((stopSlideshow_spec sRun).2 7 rfl).2.1,
   ((stopSlideshow_spec sRun).2 7 rfl).2.2.2.2.1⟩

/-- C7: starting the collage spawner while it is already Running is a no-op
(no second schedule, no extra immediate item), starting twice in a row
equals starting once, and under the handle/schedule coherence invariant at
most one pending schedule ever exists after a start. -/
theorem startSlideshow_no_duplicate (env : Env) (s : SketchState) :
    (s.slideshowInterval ≠ none → startSlideshow env s = s) ∧
    startSlideshow env (startSlideshow env s) = startSlideshow env s ∧
    (TimerInv s → TimerInv (startSlideshow env s) ∧
      (startSlideshow env s).activeTimers.length ≤ 1) := by
  rcases hsi : s.slideshowInterval with _ | h
  · refine ⟨fun hne => (hne rfl).elim, ?_, ?_⟩
    · simp [startSlideshow, hsi, createCollageImage]
    · intro ht
      have hts : s.activeTimers = [] := by simpa [TimerInv, hsi] using ht
      constructor
      · simp [startSlideshow, hsi, createCollageImage, TimerInv, hts]
      · simp [startSlideshow, hsi, createCollageImage, hts]
  · have hs1 : startSlideshow env s = s := by simp [startSlideshow, hsi]
    refine ⟨fun _ => hs1, by rw [hs1, hs1], ?_⟩
    intro ht
    have hts : s.activeTimers = [h] := by simpa [TimerInv, hsi] using ht
    rw [hs1]
    exact ⟨ht, by simp [hts]⟩

/-- C7 witness: a second start on the concrete Running state changes
nothing. -/
theorem startSlideshow_no_duplicate_witness :
    sRun.slideshowInterval ≠ none ∧ startSlideshow env0 sRun = sRun ∧
    TimerInv sRun ∧ TimerInv (startSlideshow env0 sRun) ∧
    (startSlideshow env0 sRun).activeTimers.length ≤ 1 :=
  ⟨by simp [sRun, st0], (startSlideshow_no_duplicate env0 sRun).1 (by simp [sRun, st0]),
   rfl, ((startSlideshow_no_duplicate env0 sRun).2.2 rfl).1,
   ((startSlideshow_no_duplicate env0 sRun).2.2 rfl).2⟩

/-- C8: a Collage Item is created with opacity 0, each update adds exactly 5
while opacity is below 255, opacity never decreases, and on reachable
opacities (nonnegative multiples of 5 at most 255) the drawn opacity never
exceeds 255. -/
theorem collageImage_opacity (c : CollageImage) (img : Img) (w ht : ℚ)
    (r : Rng) :
    (CollageImage.create img w ht r).1.opacity = 0 ∧
    (c.opacity < 255 → (CollageImage.update c).opacity = c.opacity + 5) ∧
    c.opacity ≤ (CollageImage.update c).opacity ∧
    (COpInv c → COpInv (CollageImage.update c) ∧
      (CollageImage.update c).displayOpacity ≤ 255) := by
  refine ⟨rfl, fun hlt => by simp [CollageImage.update, hlt], ?_, ?_⟩
  · by_cases hlt : c.opacity < 255 <;> simp [CollageImage.update, hlt]
  · rintro ⟨h0, h255, hdvd⟩
    by_cases hlt : c.opacity < 255 <;>
      simp only [CollageImage.update, CollageImage.displayOpacity, COpInv,
        hlt, if_true, if_false] <;>
      refine ⟨⟨by omega, by omega, by omega⟩, by omega⟩

/-- C8 witness: a mid-fade reachable item steps from opacity 40 to 45 and is
drawn within bounds. -/
theorem collageImage_opacity_witness :
    COpInv cFade ∧ cFade.opacity < 255 ∧
    (CollageImage.update cFade).opacity = cFade.opacity + 5 ∧
    (CollageImage.update cFade).displayOpacity ≤ 255 :=
  ⟨⟨by decide, by decide, by decide⟩, by decide,
   (collageImage_opacity cFade (loadImage "") 0 0 rng0).2.1 (by decide),
   ((collageImage_opacity cFade (loadImage "") 0 0 rng0).2.2.2
      ⟨by decide, by decide, by decide⟩).2⟩

/-- The tears loop equals: update every tear, draw them all in reverse index
order, keep exactly those whose post-update life is positive. -/
theorem tearsPass_eq (ts : List Tear) :
    tearsPass ts =
      ((ts.map Tear.update).filter (fun u => decide (0 < u.life)),
       (ts.map Tear.update).reverse) := by
  induction ts with
  | nil => rfl
  | cons t rest ih =>
      by_cases h : (Tear.update t).life ≤ 0
      · simp [tearsPass, ih, List.filter_cons, h, Int.not_lt.mpr h]
      · simp [tearsPass, ih, List.filter_cons, h, Int.not_le.mp h]

/-- C3: a created tear starts with remaining life equal to its lifespan (and
at least 1); each update decreases life by exactly 1 and keeps the
lifespan; in a frame every tear is drawn exactly once after its update —
including at life 0 — and survives into the next frame exactly when its
post-update life is positive; hence under the between-frames invariant
(life in [1, lifespan]) every drawn tear satisfies 0 ≤ life ≤ lifespan and
every surviving tear satisfies 1 ≤ life ≤ lifespan. -/
theorem tear_life_spec (x y : ℚ) (iset : List Img) (r : Rng) (t : Tear)
    (ts : List Tear) :
    (Tear.create x y iset r).1.life = (Tear.create x y iset r).1.lifespan ∧
    1 ≤ (Tear.create x y iset r).1.life ∧
    (Tear.update t).life = t.life - 1 ∧
    (Tear.update t).lifespan = t.lifespan ∧
    (tearsPass ts).2 = (ts.map Tear.update).reverse ∧
    (tearsPass ts).1 =
      (ts.map Tear.update).filter (fun u => decide (0 < u.life)) ∧
    (SetInv ts →
      (∀ u ∈ (tearsPass ts).2, 0 ≤ u.life ∧ u.life ≤ u.lifespan) ∧
      (∀ u ∈ (tearsPass ts).1, 1 ≤ u.life ∧ u.life ≤ u.lifespan)) := by
  refine ⟨rfl, ?_, rfl, rfl, by rw [tearsPass_eq],
    by rw [tearsPass_eq], ?_⟩
  · show (1 : ℤ) ≤ 5 * 60
    decide
  intro hinv
  constructor
  · intro u hu
    rw [tearsPass_eq] at hu
    simp only [List.mem_reverse, List.mem_map] at hu
    obtain ⟨t0, ht0, rfl⟩ := hu
    obtain ⟨h1, h2⟩ := hinv t0 ht0
    simp only [Tear.update]
    omega
  · intro u hu
    rw [tearsPass_eq] at hu
    simp only [List.mem_filter, List.mem_map, decide_eq_true_eq] at hu
    obtain ⟨⟨t0, ht0, rfl⟩, hpos⟩ := hu
    obtain ⟨h1, h2⟩ := hinv t0 ht0
    simp only [Tear.update] at hpos ⊢
    omega

/-- C3 witness: a singleton active set holding a freshly created tear. -/
theorem tear_life_spec_witness :
    SetInv [tear0] ∧
    (∀ u ∈ (tearsPass [tear0]).1, 1 ≤ u.life ∧ u.life ≤ u.lifespan) ∧
    (Tear.update tear0).life = tear0.life - 1 :=
  ⟨by intro t ht; simp only [List.mem_singleton] at ht; subst ht
      exact ⟨by decide, by decide⟩,
   ((tear_life_spec 0 0 [] rng0 tear0 [tear0]).2.2.2.2.2.2
      (by intro t ht; simp only [List.mem_singleton] at ht; subst ht
          exact ⟨by decide, by decide⟩)).2,
   (tear_life_spec 0 0 [] rng0 tear0 [tear0]).2.2.1⟩

/-- C4: rendered alpha and scale are affine in remaining life — alpha is
life/lifespan scaled to [0, 255] and scale is life/lifespan scaled to
[0.1, 1.0]; at life 0 they are 0 and 0.1, at life = lifespan they are 255
and 1, and at lifespan 300 with life 150 they are 127.5 and 0.55. -/
theorem tear_display_affine (t : Tear) (h : (t.lifespan : ℚ) ≠ 0) :
    Tear.displayAlpha t = ((t.life : ℚ) / (t.lifespan : ℚ)) * 255 ∧
    Tear.displayScale t =
      1 / 10 + ((t.life : ℚ) / (t.lifespan : ℚ)) * (9 / 10) ∧
    (t.life = 0 → Tear.displayAlpha t = 0 ∧ Tear.displayScale t = 1 / 10) ∧
    (t.life = t.lifespan →
      Tear.displayAlpha t = 255 ∧ Tear.displayScale t = 1) ∧
    (t.lifespan = 300 → t.life = 150 →
      Tear.displayAlpha t = 255 / 2 ∧ Tear.displayScale t = 11 / 20) := by
  refine ⟨?_, ?_, fun h0 => ⟨?_, ?_⟩, fun hl => ⟨?_, ?_⟩, fun hL hl => ⟨?_, ?_⟩⟩
  · simp only [Tear.displayAlpha, p5map]; ring
  · simp only [Tear.displayScale, p5map]; ring
  · simp [Tear.displayAlpha, p5map, h0]
  · simp [Tear.displayScale, p5map, h0]
  · simp only [Tear.displayAlpha, p5map, hl]
    field_simp
  · simp only [Tear.displayScale, p5map, hl]
    field_simp
  · simp only [Tear.displayAlpha, p5map, hL, hl]
    norm_num
  · simp only [Tear.displayScale, p5map, hL, hl]
    norm_num

/-- C4 witness: a tear with lifespan 300 at life 150 renders with alpha
127.5 and scale 0.55. -/
theorem tear_display_affine_witness :
    (tear150.lifespan : ℚ) ≠ 0 ∧ tear150.lifespan = 300 ∧
    tear150.life = 150 ∧ Tear.displayAlpha tear150 = 255 / 2 ∧
    Tear.displayScale tear150 = 11 / 20 := by
  have h3 : tear150.lifespan = 300 := rfl
  have hne : (tear150.lifespan : ℚ) ≠ 0 := by rw [h3]; norm_num
  exact ⟨hne, h3, rfl,
    ((tear_display_affine tear150 hne).2.2.2.2 h3 rfl).1,
    ((tear_display_affine tear150 hne).2.2.2.2 h3 rfl).2⟩

/-- Every tear constructor picks its image by indexing the given array with
a default fallback. -/
theorem create_img_eq (x y : ℚ) (iset : List Img) (r : Rng) :
    ∃ i, (Tear.create x y iset r).1.img = iset.getD i (loadImage "") :=
  ⟨_, rfl⟩

/-- Indexing a list whose members all lack an offset, with an offset-free
default, yields an image without an offset. -/
theorem getD_offset_none (l : List Img)
    (hl : ∀ a ∈ l, a.randomOffset = none) (i : ℕ) (d : Img)
    (hd : d.randomOffset = none) : (l.getD i d).randomOffset = none := by
  induction l generalizing i with
  | nil => simpa [List.getD]
  | cons a l ih =>
      cases i with
      | zero => exact hl a (by simp)
      | succ n =>
          simp only [List.getD_cons_succ]
          exact ih (fun b hb => hl b (by simp [hb])) n

/-- C5 (code bug): `Tear.display` reads `this.img.randomOffset`, but no image
is ever given a `randomOffset`, so for every tear the program can create —
any position, either active set, any random draws — the computed tint hue
is NaN (`none`), not a well-defined value modulo 360. -/
theorem tear_hue_nan (x y : ℚ) (ts : TearSet) (r : Rng) (hue : ℚ) :
    Tear.hueValue (Tear.create x y (setImagesA ts) r).1 hue = none := by
  obtain ⟨i, hi⟩ := create_img_eq x y (setImagesA ts) r
  have hoff : ((setImagesA ts).getD i (loadImage "")).randomOffset = none := by
    apply getD_offset_none
    · cases ts <;> decide
    · rfl
  simp only [Tear.hueValue, hi, hoff]

/-- C2 (code bug): variant B's draw reassigns `emissionRate` adaptively every
frame (20 when the measured frame rate is below 30, else 3), but its spawn
gate is the hardcoded `frameCount % 10`, so the divisor is never consulted:
at frame counter 3 in the Emitting state with divisor 3 and a healthy
60 fps frame rate, no particle is created. -/
theorem drawB_adaptive_rate_unused :
    (∀ env s, (drawB env s).emissionRate =
      if env.frameRate < 30 then 20 else 3) ∧
    st0.isCrying = true ∧ st0.emissionRate = 3 ∧ env0.frameCount = 3 ∧
    env0.frameCount % 3 = 0 ∧ (30 : ℚ) ≤ env0.frameRate ∧
    st0.tears = [] ∧ (drawB env0 st0).tears = [] ∧
    (drawB env0 st0).emissionRate = 3 := by
  refine ⟨?_, rfl, rfl, rfl, rfl, ?_, rfl, rfl, rfl⟩
  · intro env s
    by_cases hc : s.isCrying <;> by_cases hf : env.frameCount % 10 = 0 <;>
      simp [drawB, hc, hf]
  · show (30 : ℚ) ≤ 60
    norm_num
